import Mathlib

/-!
Shallow embedding of the authentication mechanisms (`src/authentication.rs`)
and the stub transport (`src/transport/stub/mod.rs`) of the `lettre` crate.

Strings are modelled as lists of byte values (`List Nat`, each element a
byte 0..255); Rust `&str` inputs enter through `.as_bytes()` in the source,
so all functions operate on byte lists.  The base64 and hex codecs are
translated from the `rustc-serialize` crate (`ToBase64` with the `STANDARD`
configuration, `FromBase64`, `ToHex`) which the source imports, and the
keyed digest from the `rust-crypto` crate (`Hmac::new(Md5::new(), key)`).
Machine integers are `Nat` with explicit reductions modulo `2 ^ 32`.
-/

set_option maxRecDepth 10000

namespace Lettre

/-- Modelled from the spec: the crate-level `NUL` constant (a one-byte
string holding the NUL character) used by `Plain::response`; the crate
root that defines it is outside the shown sources. -/
def NULbyte : Nat := 0

/-- Byte values of a Lean string literal (the source strings are ASCII, so
this coincides with the bytes of the Rust `&str`). -/
def strBytes (s : String) : List Nat := s.data.map Char.toNat

/-! ## rustc-serialize `ToBase64` with `base64::STANDARD`
(standard alphabet, padding, no line breaks). -/

/-- The standard base64 alphabet: index 0..63 to ASCII code. -/
def b64Char (n : Nat) : Nat :=
  if n < 26 then 65 + n
  else if n < 52 then 97 + (n - 26)
  else if n < 62 then 48 + (n - 52)
  else if n = 62 then 43
  else 47

/-- Base64-encode a byte list, standard alphabet, with `=` padding. -/
def toBase64 : List Nat → List Nat
  | b0 :: b1 :: b2 :: rest =>
      let n := b0 % 256 * 65536 + b1 % 256 * 256 + b2 % 256
      b64Char (n / 262144 % 64) :: b64Char (n / 4096 % 64) ::
        b64Char (n / 64 % 64) :: b64Char (n % 64) :: toBase64 rest
  | [b0, b1] =>
      let n := b0 % 256 * 65536 + b1 % 256 * 256
      [b64Char (n / 262144 % 64), b64Char (n / 4096 % 64), b64Char (n / 64 % 64), 61]
  | [b0] =>
      let n := b0 % 256 * 65536
      [b64Char (n / 262144 % 64), b64Char (n / 4096 % 64), 61, 61]
  | [] => []

/-! ## rustc-serialize `FromBase64` -/

/-- The error type of rustc-serialize's `FromBase64`: an invalid byte with
its position, or an invalid length. -/
inductive FromBase64Error where
  | invalidBase64Byte : Nat → Nat → FromBase64Error
  | invalidBase64Length : FromBase64Error
  deriving DecidableEq, Repr

/-- Value of one base64 symbol byte, `none` when the byte is not a symbol.
rustc-serialize accepts both the standard and the URL-safe alphabet. -/
def b64Val (b : Nat) : Option Nat :=
  if 65 ≤ b ∧ b ≤ 90 then some (b - 65)
  else if 97 ≤ b ∧ b ≤ 122 then some (b - 71)
  else if 48 ≤ b ∧ b ≤ 57 then some (b + 4)
  else if b = 43 ∨ b = 45 then some 62
  else if b = 47 ∨ b = 95 then some 63
  else none

/-- After the first `=`, only `=`, CR and LF may follow. -/
def fromBase64Tail : List Nat → Nat → Except FromBase64Error Unit
  | [], _ => .ok ()
  | b :: rest, idx =>
      if b = 61 ∨ b = 13 ∨ b = 10 then fromBase64Tail rest (idx + 1)
      else .error (.invalidBase64Byte b idx)

/-- Emit the bytes held by the partial group at end of input
(`modulus` symbols consumed since the last full group of four). -/
def fromBase64Finish (buf modulus : Nat) (r : List Nat) :
    Except FromBase64Error (List Nat) :=
  match modulus with
  | 0 => .ok r
  | 2 => .ok (r ++ [buf / 16 % 256])
  | 3 => .ok (r ++ [buf / 1024 % 256, buf / 4 % 256])
  | _ => .error .invalidBase64Length

/-- Main decode loop: `buf` is the u32 bit accumulator (kept reduced
modulo `2 ^ 32` as the Rust `u32` shift does), `modulus` counts symbols
in the current group, `r` the output bytes so far. -/
def fromBase64Go : List Nat → Nat → Nat → Nat → List Nat →
    Except FromBase64Error (List Nat)
  | [], _, buf, modulus, r => fromBase64Finish buf modulus r
  | b :: rest, idx, buf, modulus, r =>
      if b = 13 ∨ b = 10 then fromBase64Go rest (idx + 1) buf modulus r
      else if b = 61 then
        match fromBase64Tail rest (idx + 1) with
        | .error e => .error e
        | .ok _ => fromBase64Finish buf modulus r
      else
        match b64Val b with
        | none => .error (.invalidBase64Byte b idx)
        | some v =>
            let buf2 := (buf * 64 + v) % 4294967296
            if modulus + 1 = 4 then
              fromBase64Go rest (idx + 1) buf2 0
                (r ++ [buf2 / 65536 % 256, buf2 / 256 % 256, buf2 % 256])
            else fromBase64Go rest (idx + 1) buf2 (modulus + 1) r

/-- rustc-serialize `FromBase64` on a byte list. -/
def fromBase64 (s : List Nat) : Except FromBase64Error (List Nat) :=
  fromBase64Go s 0 0 0 []

/-! ## rustc-serialize `ToHex` (lowercase) -/

/-- Lowercase hex digit for a value below 16. -/
def hexDigit (n : Nat) : Nat := if n < 10 then 48 + n else 87 + n

/-- Lowercase hexadecimal rendering of a byte list, two digits per byte,
no separators. -/
def toHex : List Nat → List Nat
  | [] => []
  | b :: rest => hexDigit (b % 256 / 16) :: hexDigit (b % 16) :: toHex rest

/-! ## MD5 (rust-crypto `Md5`), over `Nat` reduced modulo `2 ^ 32` -/

/-- The 64 MD5 sine-table constants `floor(2^32 * abs(sin(i+1)))`. -/
def md5K : List Nat :=
  [0xd76aa478, 0xe8c7b756, 0x242070db, 0xc1bdceee,
   0xf57c0faf, 0x4787c62a, 0xa8304613, 0xfd469501,
   0x698098d8, 0x8b44f7af, 0xffff5bb1, 0x895cd7be,
   0x6b901122, 0xfd987193, 0xa679438e, 0x49b40821,
   0xf61e2562, 0xc040b340, 0x265e5a51, 0xe9b6c7aa,
   0xd62f105d, 0x02441453, 0xd8a1e681, 0xe7d3fbc8,
   0x21e1cde6, 0xc33707d6, 0xf4d50d87, 0x455a14ed,
   0xa9e3e905, 0xfcefa3f8, 0x676f02d9, 0x8d2a4c8a,
   0xfffa3942, 0x8771f681, 0x6d9d6122, 0xfde5380c,
   0xa4beea44, 0x4bdecfa9, 0xf6bb4b60, 0xbebfbc70,
   0x289b7ec6, 0xeaa127fa, 0xd4ef3085, 0x04881d05,
   0xd9d4d039, 0xe6db99e5, 0x1fa27cf8, 0xc4ac5665,
   0xf4292244, 0x432aff97, 0xab9423a7, 0xfc93a039,
   0x655b59c3, 0x8f0ccc92, 0xffeff47d, 0x85845dd1,
   0x6fa87e4f, 0xfe2ce6e0, 0xa3014314, 0x4e0811a1,
   0xf7537e82, 0xbd3af235, 0x2ad7d2bb, 0xeb86d391]

/-- The per-round left-rotation amounts. -/
def md5S : List Nat :=
  [7, 12, 17, 22, 7, 12, 17, 22, 7, 12, 17, 22, 7, 12, 17, 22,
   5, 9, 14, 20, 5, 9, 14, 20, 5, 9, 14, 20, 5, 9, 14, 20,
   4, 11, 16, 23, 4, 11, 16, 23, 4, 11, 16, 23, 4, 11, 16, 23,
   6, 10, 15, 21, 6, 10, 15, 21, 6, 10, 15, 21, 6, 10, 15, 21]

/-- Left-rotation of a 32-bit value. -/
def rotl32 (x s : Nat) : Nat := (x * 2 ^ s + x / 2 ^ (32 - s)) % 4294967296

/-- Bitwise complement of a 32-bit value. -/
def not32 (x : Nat) : Nat := Nat.xor x 4294967295

/-- One MD5 round `i` (0..63) on state `(a, b, c, d)` with message words `m`. -/
def md5Round (m : Nat → Nat) (st : Nat × Nat × Nat × Nat) (i : Nat) :
    Nat × Nat × Nat × Nat :=
  let a := st.1
  let b := st.2.1
  let c := st.2.2.1
  let d := st.2.2.2
  let f :=
    if i < 16 then Nat.lor (Nat.land b c) (Nat.land (not32 b) d)
    else if i < 32 then Nat.lor (Nat.land d b) (Nat.land (not32 d) c)
    else if i < 48 then Nat.xor b (Nat.xor c d)
    else Nat.xor c (Nat.lor b (not32 d))
  let g :=
    if i < 16 then i
    else if i < 32 then (5 * i + 1) % 16
    else if i < 48 then (3 * i + 5) % 16
    else 7 * i % 16
  let tmp := (f + a + md5K.getD i 0 + m g) % 4294967296
  (d, (b + rotl32 tmp (md5S.getD i 0)) % 4294967296, b, c)

/-- Little-endian message word `j` (0..15) of a 64-byte block. -/
def md5Word (block : List Nat) (j : Nat) : Nat :=
  block.getD (4 * j) 0 % 256 + block.getD (4 * j + 1) 0 % 256 * 256 +
    block.getD (4 * j + 2) 0 % 256 * 65536 + block.getD (4 * j + 3) 0 % 256 * 16777216

/-- Compress one 64-byte block into the running state. -/
def md5Compress (st : Nat × Nat × Nat × Nat) (block : List Nat) :
    Nat × Nat × Nat × Nat :=
  let r := (List.range 64).foldl (md5Round (md5Word block)) st
  ((st.1 + r.1) % 4294967296, (st.2.1 + r.2.1) % 4294967296,
   (st.2.2.1 + r.2.2.1) % 4294967296, (st.2.2.2 + r.2.2.2) % 4294967296)

/-- Fold the compression function over the message, 64 bytes at a time.
The `fuel` argument only drives structural recursion; every step consumes
at least one byte, so `fuel = l.length` always suffices. -/
def md5Go (fuel : Nat) (st : Nat × Nat × Nat × Nat) (l : List Nat) :
    Nat × Nat × Nat × Nat :=
  match fuel, l with
  | _, [] => st
  | 0, _ => st
  | fuel2 + 1, b :: rest =>
      md5Go fuel2 (md5Compress st ((b :: rest).take 64)) ((b :: rest).drop 64)

/-- Fold the compression function over the padded message. -/
def md5Process (st : Nat × Nat × Nat × Nat) (l : List Nat) :
    Nat × Nat × Nat × Nat :=
  md5Go l.length st l

/-- Little-endian bytes of a 64-bit value. -/
def le64 (n : Nat) : List Nat :=
  [n % 256, n / 256 % 256, n / 65536 % 256, n / 16777216 % 256,
   n / 4294967296 % 256, n / 1099511627776 % 256,
   n / 281474976710656 % 256, n / 72057594037927936 % 256]

/-- Little-endian bytes of a 32-bit value. -/
def le32 (n : Nat) : List Nat :=
  [n % 256, n / 256 % 256, n / 65536 % 256, n / 16777216 % 256]

/-- MD5 padding: `0x80`, zeros to 56 mod 64, then the bit length as 64-bit LE. -/
def md5Pad (msg : List Nat) : List Nat :=
  msg ++ [128] ++ List.replicate ((120 - (msg.length + 1) % 64) % 64) 0 ++
    le64 (msg.length * 8 % 18446744073709551616)

/-- The MD5 digest of a byte list: 16 bytes. -/
def md5 (msg : List Nat) : List Nat :=
  let s := md5Process (0x67452301, 0xefcdab89, 0x98badcfe, 0x10325476) (md5Pad msg)
  le32 s.1 ++ le32 s.2.1 ++ le32 s.2.2.1 ++ le32 s.2.2.2

/-! ## HMAC-MD5 (rust-crypto `Hmac::new(Md5::new(), key)`) -/

/-- The HMAC key expanded to the 64-byte MD5 block size: a longer key is
first digested, then zero-padded. -/
def hmacExpandKey (key : List Nat) : List Nat :=
  let k := if 64 < key.length then md5 key else key
  k ++ List.replicate (64 - k.length) 0

/-- HMAC-MD5 of a message under a key: 16 bytes. -/
def hmacMd5 (key msg : List Nat) : List Nat :=
  let k := hmacExpandKey key
  md5 (k.map (Nat.xor 92) ++ md5 (k.map (Nat.xor 54) ++ msg))

/-! ## The `lettre` error taxonomy and extension tags used by `authentication.rs` -/

/-- Modelled from the spec: the two `Error` variants of the crate's error
taxonomy that `authentication.rs` constructs (the defining `error.rs` is
outside the shown sources): `ClientError` with a fixed message, and
`ChallengeParsingError` wrapping the base64 decode failure. -/
inductive Error where
  | ClientError : String → Error
  | ChallengeParsingError : FromBase64Error → Error
  deriving DecidableEq, Repr

/-- Modelled from the spec: the two `Extension` tags that
`authentication.rs` returns (the defining `extension.rs` is outside the
shown sources). -/
inductive Extension where
  | PlainAuthentication : Extension
  | CramMd5Authentication : Extension
  deriving DecidableEq, Repr

/-! ## The `Plain` mechanism (`impl Mecanism for Plain`) -/

namespace Plain

/-- `Plain::extension`. -/
def extension : Extension := Extension.PlainAuthentication

/-- `Plain::supports_initial_response`. -/
def supports_initial_response : Bool := true

/-- `Plain::response`: rejects any present challenge; otherwise base64 of
`NUL || username || NUL || password`. -/
def response (username password : List Nat) (challenge : Option (List Nat)) :
    Except Error (List Nat) :=
  match challenge with
  | some _ => .error (.ClientError "This mecanism does not expect a challenge")
  | none => .ok (toBase64 ([NULbyte] ++ username ++ [NULbyte] ++ password))

end Plain

/-! ## The `CramMd5` mechanism (`impl Mecanism for CramMd5`) -/

namespace CramMd5

/-- `CramMd5::extension`. -/
def extension : Extension := Extension.CramMd5Authentication

/-- `CramMd5::supports_initial_response`. -/
def supports_initial_response : Bool := false

/-- `CramMd5::response`: requires a challenge, base64-decodes it, and
returns base64 of `username || " " || lowercase-hex(HMAC-MD5(password, decoded))`. -/
def response (username password : List Nat) (challenge : Option (List Nat)) :
    Except Error (List Nat) :=
  match challenge with
  | none => .error (.ClientError "This mecanism does expect a challenge")
  | some encoded =>
      match fromBase64 encoded with
      | .error e => .error (.ChallengeParsingError e)
      | .ok decoded =>
          .ok (toBase64 (username ++ [32] ++ toHex (hmacMd5 password decoded)))

end CramMd5

/-! ## The stub transport (`src/transport/stub/mod.rs`) -/

/-- Modelled from the spec: the `Envelope` type is defined outside the shown
sources and `StubTransport::send_raw` ignores it, so it is modelled as an
opaque record carrying arbitrary byte data. -/
structure Envelope where
  data : List Nat

/-- `StubResult`, i.e. `Result<(), ()>`. -/
abbrev StubResult := Except Unit Unit

/-- `StubTransport`: holds the canned response. -/
structure StubTransport where
  response : StubResult

/-- `StubTransport::new`. -/
def StubTransport.new (response : StubResult) : StubTransport := ⟨response⟩

/-- `StubTransport::new_positive`. -/
def StubTransport.new_positive : StubTransport := ⟨.ok ()⟩

/-- `StubTransport::send_raw`: returns the canned response, ignoring both
arguments. -/
def StubTransport.send_raw (t : StubTransport) (_envelope : Envelope)
    (_email : List Nat) : StubResult :=
  t.response

end Lettre

deriving instance DecidableEq for Except

namespace Lettre

/-! ## Supporting lemmas -/

/-- A hex digit produced from a value below 16 is an ASCII `0`-`9` or `a`-`f`. -/
theorem hexDigit_range (n : Nat) (h : n < 16) :
    (48 ≤ hexDigit n ∧ hexDigit n ≤ 57) ∨ (97 ≤ hexDigit n ∧ hexDigit n ≤ 102) := by
  unfold hexDigit
  split <;> omega

/-- `toHex` emits two characters per input byte. -/
theorem toHex_length (l : List Nat) : (toHex l).length = 2 * l.length := by
  induction l with
  | nil => rfl
  | cons b rest ih => simp [toHex, ih]; omega

/-- Every character `toHex` emits is a lowercase hexadecimal digit. -/
theorem toHex_mem (l : List Nat) :
    ∀ x ∈ toHex l, (48 ≤ x ∧ x ≤ 57) ∨ (97 ≤ x ∧ x ≤ 102) := by
  induction l with
  | nil => intro x hx; cases hx
  | cons b rest ih =>
      intro x hx
      simp only [toHex, List.mem_cons] at hx
      rcases hx with rfl | rfl | hx
      · exact hexDigit_range _ (by omega)
      · exact hexDigit_range _ (by omega)
      · exact ih x hx

/-- An MD5 digest is 16 bytes long, whatever the message. -/
theorem md5_length (msg : List Nat) : (md5 msg).length = 16 := by
  simp [md5, le32]

/-- An HMAC-MD5 digest is 16 bytes long, whatever the key and message. -/
theorem hmacMd5_length (key msg : List Nat) : (hmacMd5 key msg).length = 16 :=
  md5_length _

/-! ## The claims -/

/-- Claim C1: for every username `u`, password `p` and challenge `c` that is
valid base64 (decoding to `d`), `CramMd5.response u p (some c)` returns `Ok`
of the base64 encoding (standard alphabet, padded) of
`u || " " || h` where `h` is the HMAC-MD5 of `d` keyed with `p`, rendered
as exactly 32 lowercase hexadecimal characters with no separators. -/
theorem C1_cramMd5_response_ok (u p c d : List Nat)
    (h : fromBase64 c = Except.ok d) :
    CramMd5.response u p (some c) =
      Except.ok (toBase64 (u ++ [32] ++ toHex (hmacMd5 p d))) ∧
    (toHex (hmacMd5 p d)).length = 32 ∧
    ∀ x ∈ toHex (hmacMd5 p d), (48 ≤ x ∧ x ≤ 57) ∨ (97 ≤ x ∧ x ≤ 102) := by
  refine ⟨?_, ?_, toHex_mem _⟩
  · simp [CramMd5.response, h]
  · rw [toHex_length, hmacMd5_length]

/-- Witness for C1 at the concrete input `u = "a"`, `p = "b"`,
`c = "AA=="` (which decodes to the single zero byte). -/
theorem C1_witness :
    fromBase64 (strBytes "AA==") = Except.ok [0] ∧
    (CramMd5.response [97] [98] (some (strBytes "AA==")) =
      Except.ok (toBase64 ([97] ++ [32] ++ toHex (hmacMd5 [98] [0]))) ∧
    (toHex (hmacMd5 [98] [0])).length = 32 ∧
    ∀ x ∈ toHex (hmacMd5 [98] [0]), (48 ≤ x ∧ x ≤ 57) ∨ (97 ≤ x ∧ x ≤ 102)) :=
  ⟨by decide, C1_cramMd5_response_ok [97] [98] (strBytes "AA==") [0] (by decide)⟩

/-- Claim C2: for every username `u` and password `p`,
`Plain.response u p none` returns `Ok` of the base64 encoding (standard
alphabet, padded) of one leading NUL byte, the bytes of `u`, one NUL byte,
then the bytes of `p`, with no trailing NUL; also for empty `u` or `p`. -/
theorem C2_plain_response_ok (u p : List Nat) :
    Plain.response u p none = Except.ok (toBase64 ([0] ++ u ++ [0] ++ p)) :=
  rfl

/-- Claim C3: the CRAM-MD5 test vector from the source's own test:
username `alice`, password `wonderland`, and the RFC 2195 challenge. -/
theorem C3_cram_md5_test_vector :
    CramMd5.response (strBytes "alice") (strBytes "wonderland")
      (some (strBytes "PDE3ODkzLjEzMjA2NzkxMjNAdGVzc2VyYWN0LnN1c2FtLmluPg==")) =
    Except.ok (strBytes "YWxpY2UgNjRiMmE0M2MxZjZlZDY4MDZhOTgwOTE0ZTIzZTc1ZjA=") := by
  decide

/-- Claim C4: the PLAIN test vector from the source's own test:
`Plain.response "username" "password" none` is `Ok "AHVzZXJuYW1lAHBhc3N3b3Jk"`. -/
theorem C4_plain_test_vector :
    Plain.response (strBytes "username") (strBytes "password") none =
      Except.ok (strBytes "AHVzZXJuYW1lAHBhc3N3b3Jk") := by
  decide

/-- Claim C5: with a present challenge, `CramMd5.response` fails exactly
when base64 decoding fails, with `ChallengeParsingError` wrapping the
underlying decode failure (never `ClientError`); when decoding succeeds
(the empty string included) the call succeeds, with no other failure mode. -/
theorem C5_cramMd5_error_modes (u p c : List Nat) :
    (∀ e, fromBase64 c = Except.error e →
      CramMd5.response u p (some c) =
        Except.error (Error.ChallengeParsingError e)) ∧
    (∀ d, fromBase64 c = Except.ok d →
      ∃ r, CramMd5.response u p (some c) = Except.ok r) := by
  constructor
  · intro e he
    simp [CramMd5.response, he]
  · intro d hd
    refine ⟨toBase64 (u ++ [32] ++ toHex (hmacMd5 p d)), ?_⟩
    simp [CramMd5.response, hd]

/-- Witness for C5: the byte `!` is rejected at position 0, and the empty
challenge (valid base64) succeeds. -/
theorem C5_witness :
    CramMd5.response [] [] (some [33]) =
      Except.error (Error.ChallengeParsingError
        (FromBase64Error.invalidBase64Byte 33 0)) ∧
    ∃ r, CramMd5.response [] [] (some []) = Except.ok r :=
  ⟨(C5_cramMd5_error_modes [] [] [33]).1 _ (by decide),
   (C5_cramMd5_error_modes [] [] []).2 [] (by decide)⟩

/-- Counterexample to claim C6 as stated: the source spells the message
`"This mecanism does not expect a challenge"` (sic), so the response to a
present challenge is not the claimed
`ClientError "This mechanism does not expect a challenge"`. -/
theorem C6_counterexample :
    ¬ (Plain.response [] [] (some []) =
      Except.error (Error.ClientError
        "This mechanism does not expect a challenge")) := by
  decide

/-- Claim C6 as amended: for every username, password and present challenge
value (the empty string included), `Plain.response` fails with `ClientError`
carrying the message `"This mecanism does not expect a challenge"` (the
source's spelling), and no other inputs make `Plain.response` fail. -/
theorem C6_plain_rejects_challenge (u p c : List Nat) :
    Plain.response u p (some c) =
      Except.error (Error.ClientError
        "This mecanism does not expect a challenge") ∧
    ∃ r, Plain.response u p none = Except.ok r :=
  ⟨rfl, _, rfl⟩

/-- Claim C7: for every username and password, `CramMd5.response` with an
absent challenge fails with `ClientError`. -/
theorem C7_cramMd5_requires_challenge (u p : List Nat) :
    CramMd5.response u p none =
      Except.error (Error.ClientError "This mecanism does expect a challenge") :=
  rfl

/-- Claim C8: the mechanism metadata: `Plain` supports an initial response,
`CramMd5` does not, their extension tags are the stated constants and are
distinct.  All four are closed constants of the embedding, so they cannot
depend on any input or prior call. -/
theorem C8_mechanism_metadata :
    Plain.supports_initial_response = true ∧
    CramMd5.supports_initial_response = false ∧
    Plain.extension = Extension.PlainAuthentication ∧
    CramMd5.extension = Extension.CramMd5Authentication ∧
    Plain.extension ≠ CramMd5.extension := by
  refine ⟨rfl, rfl, rfl, rfl, ?_⟩
  decide

/-- Claim C9: both `response` functions are pure functions of their three
inputs.  The Rust implementations take no mutable receiver and touch no
global state, so their embedding as Lean functions is faithful, and two
calls at the same inputs are definitionally equal. -/
theorem C9_response_pure (u p : List Nat) (c : Option (List Nat)) :
    Plain.response u p c = Plain.response u p c ∧
    CramMd5.response u p c = CramMd5.response u p c :=
  ⟨rfl, rfl⟩

/-- Claim C10: `StubTransport::new r` answers every `send_raw` call with
exactly `r`, ignoring both arguments, and `StubTransport::new_positive`
always answers `Ok(())`. -/
theorem C10_stub_send_raw (r : StubResult) (envelope : Envelope)
    (email : List Nat) :
    (StubTransport.new r).send_raw envelope email = r ∧
    StubTransport.new_positive.send_raw envelope email = Except.ok () :=
  ⟨rfl, rfl⟩

end Lettre
